import Mathlib

/-!
Shallow embedding of the GHAS audit aggregation and compliance scoring engine
(`src/audit.js`).  Timestamps are modelled as rational numbers of milliseconds
since the epoch (JavaScript `Date` arithmetic on ISO strings); JavaScript
numbers are modelled as rationals, counts as naturals.  Absent / `undefined`
object properties are modelled with `Option`.
-/

namespace GhasAudit

/-- Normalized alert record: the union of the fields produced by the three
mapping sites in `getCodeScanningAlerts`, `getSecretScanningAlerts` and
`getDependabotAlerts`.  A JavaScript object only carries the properties its
mapping assigned, so every field is optional except `createdAt`, which all
three mappings set. -/
structure Alert where
  number : Option Nat
  id : Option String
  state : Option String
  severity : Option String
  rule : Option String
  description : Option String
  path : Option String
  tool : Option String
  secretType : Option String
  secretTypeDisplayName : Option String
  resolvedBy : Option String
  pushProtectionBypassed : Option Bool
  package : Option String
  ecosystem : Option String
  summary : Option String
  cvssScore : Option ℚ
  createdAt : ℚ
  resolvedAt : Option ℚ
  dismissedAt : Option ℚ
  deriving DecidableEq

/-- An alert object with no property set (all `undefined`), used as the base
for the three mapping functions. -/
def defaultAlert : Alert :=
  { number := none, id := none, state := none, severity := none, rule := none,
    description := none, path := none, tool := none, secretType := none,
    secretTypeDisplayName := none, resolvedBy := none, pushProtectionBypassed := none,
    package := none, ecosystem := none, summary := none, cvssScore := none,
    createdAt := 0, resolvedAt := none, dismissedAt := none }

/-- JavaScript `x || fallback` on a string-valued property: `undefined`, `null`
and the empty string are falsy. -/
def jsStringOr (value : Option String) (fallback : String) : String :=
  match value with
  | none => fallback
  | some s => if s = "" then fallback else s

/-- Raw rule object of a REST code-scanning alert (`alert.rule`). -/
structure CodeScanningRule where
  id : String
  description : String
  security_severity_level : Option String
  deriving DecidableEq

/-- Raw `alert.most_recent_instance.location` (optional in the REST payload). -/
structure CodeScanningLocation where
  path : String
  deriving DecidableEq

/-- Raw `alert.most_recent_instance`. -/
structure CodeScanningInstance where
  location : Option CodeScanningLocation
  deriving DecidableEq

/-- Raw `alert.tool`. -/
structure CodeScanningTool where
  name : String
  deriving DecidableEq

/-- Raw REST code-scanning alert, restricted to the properties the mapping in
`getCodeScanningAlerts` reads. -/
structure CodeScanningRawAlert where
  number : Nat
  state : String
  rule : CodeScanningRule
  most_recent_instance : CodeScanningInstance
  created_at : ℚ
  tool : CodeScanningTool
  deriving DecidableEq

/-- The mapping applied to each REST code-scanning alert
(`getCodeScanningAlerts`): severity is
`alert.rule.security_severity_level || 'unknown'`. -/
def mapCodeScanningAlert (alert : CodeScanningRawAlert) : Alert :=
  { defaultAlert with
    number := some alert.number,
    state := some alert.state,
    severity := some (jsStringOr alert.rule.security_severity_level "unknown"),
    rule := some alert.rule.id,
    description := some alert.rule.description,
    path := alert.most_recent_instance.location.map CodeScanningLocation.path,
    createdAt := alert.created_at,
    tool := some alert.tool.name }

/-- Raw REST secret-scanning alert, restricted to the properties the mapping in
`getSecretScanningAlerts` reads. -/
structure SecretScanningRawAlert where
  number : Nat
  state : String
  secret_type : String
  secret_type_display_name : String
  created_at : ℚ
  resolved_at : Option ℚ
  resolved_by : Option String
  push_protection_bypassed : Bool
  deriving DecidableEq

/-- The mapping applied to each REST secret-scanning alert
(`getSecretScanningAlerts`). -/
def mapSecretScanningAlert (alert : SecretScanningRawAlert) : Alert :=
  { defaultAlert with
    number := some alert.number,
    state := some alert.state,
    secretType := some alert.secret_type,
    secretTypeDisplayName := some alert.secret_type_display_name,
    createdAt := alert.created_at,
    resolvedAt := alert.resolved_at,
    resolvedBy := alert.resolved_by,
    pushProtectionBypassed := some alert.push_protection_bypassed }

/-- GraphQL `securityVulnerability.package`. -/
structure DependencyPackage where
  name : String
  ecosystem : String
  deriving DecidableEq

/-- GraphQL `advisory.cvss`. -/
structure DependencyCvss where
  score : ℚ
  deriving DecidableEq

/-- GraphQL `securityVulnerability.advisory`. -/
structure DependencyAdvisory where
  summary : String
  description : String
  cvss : Option DependencyCvss
  deriving DecidableEq

/-- GraphQL `securityVulnerability`. -/
structure SecurityVulnerability where
  severity : String
  package : DependencyPackage
  advisory : DependencyAdvisory
  deriving DecidableEq

/-- One node of the `vulnerabilityAlerts` GraphQL connection.  The query
selects `dismissedAt`, so the raw node carries it. -/
structure DependencyNode where
  id : String
  createdAt : ℚ
  dismissedAt : Option ℚ
  securityVulnerability : SecurityVulnerability
  deriving DecidableEq

/-- The mapping applied to each GraphQL vulnerability-alert node
(`getDependabotAlerts`).  Note that it assigns neither `state` nor
`resolvedAt` nor `dismissedAt`: the queried `dismissedAt` value is dropped. -/
def mapDependencyAlert (node : DependencyNode) : Alert :=
  { defaultAlert with
    id := some node.id,
    createdAt := node.createdAt,
    severity := some node.securityVulnerability.severity,
    package := some node.securityVulnerability.package.name,
    ecosystem := some node.securityVulnerability.package.ecosystem,
    summary := some node.securityVulnerability.advisory.summary,
    cvssScore := node.securityVulnerability.advisory.cvss.map DependencyCvss.score }

/-- GraphQL `pageInfo`. -/
structure PageInfo where
  hasNextPage : Bool
  endCursor : Option String
  deriving DecidableEq

/-- One page of the `vulnerabilityAlerts` connection. -/
structure VulnerabilityAlertsPage where
  nodes : List DependencyNode
  pageInfo : PageInfo
  deriving DecidableEq

/-- The cursor pagination loop of `getDependabotAlerts`.  `fetch` models one
GraphQL round trip, indexed by page number (abstracting the opaque cursor):
`Except.error` models a thrown request, `Except.ok none` models a response
whose `repository?.vulnerabilityAlerts?.nodes` chain is missing.  The
surrounding `try`/`catch` in the source absorbs a throw at any iteration,
logs a warning and returns the alerts accumulated so far, so the result pairs
the alert list with whether that warning was recorded.  The extra fuel
argument only bounds the iteration count for termination; with enough fuel it
never decides the result. -/
def getDependabotAlerts (fetch : Nat → Except String (Option VulnerabilityAlertsPage)) :
    Nat → Nat → List Alert → List Alert × Bool
  | 0, _, alerts => (alerts, false)
  | fuel + 1, page, alerts =>
    match fetch page with
    | Except.error _ => (alerts, true)
    | Except.ok none => (alerts, false)
    | Except.ok (some result) =>
      let alerts := alerts ++ result.nodes.map mapDependencyAlert
      if result.pageInfo.hasNextPage then
        getDependabotAlerts fetch fuel (page + 1) alerts
      else
        (alerts, false)

/-- Repository identity as used by `getRepositories` (restricted to the
properties the selector reads). -/
structure Repository where
  name : String
  topics : List String
  deriving DecidableEq

/-- JavaScript `s.split(',')` on a character list: splitting an empty string
yields one empty piece, exactly as in JavaScript. -/
def splitOnComma : List Char → List (List Char)
  | [] => [[]]
  | c :: rest =>
    if c = ',' then [] :: splitOnComma rest
    else
      match splitOnComma rest with
      | [] => [[c]]
      | piece :: pieces => (c :: piece) :: pieces

/-- JavaScript `s.split(',')`. -/
def jsSplitCommas (s : String) : List String :=
  (splitOnComma s.toList).map List.asString

/-- JavaScript `s.trim()`: strip whitespace from both ends. -/
def jsTrim (s : String) : String :=
  (((s.toList.dropWhile Char.isWhitespace).reverse.dropWhile Char.isWhitespace).reverse).asString

/-- Explicit mode of `getRepositories`: split the comma-separated option on
commas, trim each name, resolve each name and push the resolved data,
skipping (with a warning) any name that fails to resolve. -/
def getRepositoriesExplicit (resolve : String → Option Repository)
    (reposOption : String) : List Repository :=
  ((jsSplitCommas reposOption).map jsTrim).foldl
    (fun repos repoName =>
      match resolve repoName with
      | some data => repos ++ [data]
      | none => repos) []

/-- `features.codeScanning`. -/
structure CodeScanningStatus where
  enabled : Bool
  deriving DecidableEq

/-- `features.secretScanning`. -/
structure SecretScanningStatus where
  enabled : Bool
  pushProtection : Bool
  deriving DecidableEq

/-- `features.dependabot`. -/
structure DependabotStatus where
  enabled : Bool
  securityUpdates : Bool
  deriving DecidableEq

/-- `features.branchProtection`. -/
structure BranchProtectionStatus where
  enabled : Bool
  deriving DecidableEq

/-- The four feature probes of `getSecurityFeatures`, restricted to the flags
the scorer reads. -/
structure SecurityFeatures where
  codeScanning : CodeScanningStatus
  secretScanning : SecretScanningStatus
  dependabot : DependabotStatus
  branchProtection : BranchProtectionStatus
  deriving DecidableEq

/-- `repoAudit.metrics`. -/
structure RepoMetrics where
  totalAlerts : Nat
  openAlerts : Nat
  closedAlerts : Nat
  meanTimeToResolve : ℚ
  deriving DecidableEq

/-- Zero metrics, as initialized in `auditRepository` before
`calculateRepoMetrics` runs. -/
def zeroMetrics : RepoMetrics :=
  { totalAlerts := 0, openAlerts := 0, closedAlerts := 0, meanTimeToResolve := 0 }

/-- `repoAudit.alerts`: the three per-source collections. -/
structure RepoAlerts where
  code : List Alert
  secret : List Alert
  dependency : List Alert
  deriving DecidableEq

/-- One `repoAudit` object, restricted to the properties the metrics
calculator, summary fold and compliance scorer read. -/
structure RepoAudit where
  name : String
  securityFeatures : SecurityFeatures
  alerts : RepoAlerts
  metrics : RepoMetrics
  deriving DecidableEq

/-- The `allAlerts` spread in `calculateRepoMetrics`. -/
def allAlertsOf (repoAudit : RepoAudit) : List Alert :=
  repoAudit.alerts.code ++ repoAudit.alerts.secret ++ repoAudit.alerts.dependency

/-- The open filter of `calculateRepoMetrics`:
`a.state === 'open' || !a.dismissedAt`. -/
def isOpenAlert (a : Alert) : Bool :=
  a.state == some "open" || a.dismissedAt.isNone

/-- The resolved filter of `calculateRepoMetrics`:
`a.resolvedAt || a.dismissedAt` (truthiness of either timestamp). -/
def hasResolutionTimestamp (a : Alert) : Bool :=
  a.resolvedAt.isSome || a.dismissedAt.isSome

/-- `(new Date(a.resolvedAt || a.dismissedAt) - new Date(a.createdAt))`
converted to days; only evaluated on alerts passing
`hasResolutionTimestamp`. -/
def resolutionTimeDays (a : Alert) : ℚ :=
  (a.resolvedAt.getD (a.dismissedAt.getD 0) - a.createdAt) / (1000 * 60 * 60 * 24)

/-- `calculateRepoMetrics`: recompute the metrics of one repository audit from
its three alert collections. -/
def calculateRepoMetrics (repoAudit : RepoAudit) : RepoAudit :=
  let allAlerts := allAlertsOf repoAudit
  let totalAlerts := allAlerts.length
  let openAlerts := (allAlerts.filter isOpenAlert).length
  let closedAlerts := totalAlerts - openAlerts
  let resolvedAlerts := allAlerts.filter hasResolutionTimestamp
  let meanTimeToResolve : ℚ :=
    if resolvedAlerts.length > 0 then
      (resolvedAlerts.map resolutionTimeDays).sum / (resolvedAlerts.length : ℚ)
    else 0
  { repoAudit with metrics :=
      { totalAlerts := totalAlerts, openAlerts := openAlerts,
        closedAlerts := closedAlerts, meanTimeToResolve := meanTimeToResolve } }

/-- `results.summary`. -/
@[ext]
structure Summary where
  totalRepositories : Nat
  scannedRepositories : Nat
  totalAlerts : Nat
  criticalAlerts : Nat
  highAlerts : Nat
  mediumAlerts : Nat
  lowAlerts : Nat
  secretAlerts : Nat
  dependencyAlerts : Nat
  codeAlerts : Nat
  deriving DecidableEq

/-- The `switch (alert.severity)` over one code-scanning alert in
`updateSummary`: a JavaScript switch is a chain of strict (case-sensitive)
equality tests, with no default case. -/
def bumpCodeSeverity (s : Summary) (alert : Alert) : Summary :=
  if alert.severity == some "critical" then
    { s with criticalAlerts := s.criticalAlerts + 1 }
  else if alert.severity == some "high" then
    { s with highAlerts := s.highAlerts + 1 }
  else if alert.severity == some "medium" then
    { s with mediumAlerts := s.mediumAlerts + 1 }
  else if alert.severity == some "low" then
    { s with lowAlerts := s.lowAlerts + 1 }
  else s

/-- The `switch (alert.severity)` over one dependency alert in
`updateSummary`: the GraphQL vocabulary, matched case-sensitively. -/
def bumpDependencySeverity (s : Summary) (alert : Alert) : Summary :=
  if alert.severity == some "CRITICAL" then
    { s with criticalAlerts := s.criticalAlerts + 1 }
  else if alert.severity == some "HIGH" then
    { s with highAlerts := s.highAlerts + 1 }
  else if alert.severity == some "MODERATE" then
    { s with mediumAlerts := s.mediumAlerts + 1 }
  else if alert.severity == some "LOW" then
    { s with lowAlerts := s.lowAlerts + 1 }
  else s

/-- `updateSummary`: fold one audited repository into the fleet summary.
Secret alerts are counted only by type, never by severity. -/
def updateSummary (s : Summary) (repoAudit : RepoAudit) : Summary :=
  let s := { s with totalAlerts := s.totalAlerts + repoAudit.metrics.totalAlerts }
  let s := repoAudit.alerts.code.foldl bumpCodeSeverity s
  let s := repoAudit.alerts.dependency.foldl bumpDependencySeverity s
  { s with
      codeAlerts := s.codeAlerts + repoAudit.alerts.code.length,
      secretAlerts := s.secretAlerts + repoAudit.alerts.secret.length,
      dependencyAlerts := s.dependencyAlerts + repoAudit.alerts.dependency.length }

/-- One entry of `results.compliance.frameworks`. -/
structure FrameworkScore where
  score : ℚ
  details : String
  deriving DecidableEq

/-- `results.compliance`; the frameworks object is modelled as an association
list, empty until `calculateCompliance` fills it. -/
structure Compliance where
  overallScore : ℚ
  frameworks : List (String × FrameworkScore)
  deriving DecidableEq

/-- The run accumulator `this.results`, restricted to the parts the engine
reads and writes (the immutable metadata block is omitted). -/
structure Results where
  summary : Summary
  repositories : List RepoAudit
  compliance : Compliance
  deriving DecidableEq

/-- Per-repository scanning contribution in `calculateCompliance`. -/
def scanningContribution (r : RepoAudit) : ℚ :=
  (if r.securityFeatures.codeScanning.enabled then (33 : ℚ) / 100 else 0) +
  (if r.securityFeatures.secretScanning.enabled then (33 : ℚ) / 100 else 0) +
  (if r.securityFeatures.dependabot.enabled then (34 : ℚ) / 100 else 0)

/-- Per-repository protection contribution in `calculateCompliance`. -/
def protectionContribution (r : RepoAudit) : ℚ :=
  (if r.securityFeatures.branchProtection.enabled then (1 : ℚ) / 2 else 0) +
  (if r.securityFeatures.secretScanning.pushProtection then (1 : ℚ) / 2 else 0)

/-- Per-repository resolution contribution in `calculateCompliance`: the
closed fraction, or 1 for a repository with no alerts. -/
def resolutionContribution (r : RepoAudit) : ℚ :=
  if r.metrics.totalAlerts > 0 then
    (r.metrics.closedAlerts : ℚ) / (r.metrics.totalAlerts : ℚ)
  else 1

/-- JavaScript `haystack.includes(keyword)` on strings. -/
def charListIncludes (keyword : List Char) : List Char → Bool
  | [] => keyword.isEmpty
  | c :: rest => keyword.isPrefixOf (c :: rest) || charListIncludes keyword rest

/-- JavaScript `haystack.includes(keyword)`. -/
def strIncludes (haystack keyword : String) : Bool :=
  charListIncludes keyword.toList haystack.toList

/-- The `repos.reduce` pattern of `calculateOWASPCompliance`: total number of
code-scanning alerts whose rule id contains `keyword`. -/
def countRuleMatches (keyword : String) (repos : List RepoAudit) : Nat :=
  (repos.map fun repo =>
    (repo.alerts.code.filter fun a => strIncludes (a.rule.getD "") keyword).length).sum

/-- `calculateOWASPCompliance`. -/
def calculateOWASPCompliance (res : Results) : ℚ :=
  let repos := res.repositories
  let injectionAlerts := countRuleMatches "injection" repos
  let authAlerts := countRuleMatches "auth" repos
  let configAlerts := countRuleMatches "config" repos
  let scanningEnabled := repos.countP fun r => r.securityFeatures.codeScanning.enabled
  let score : ℚ :=
    (if injectionAlerts = 0 then 10 else 0) +
    (if authAlerts = 0 then 10 else 0) +
    (if res.summary.secretAlerts = 0 then 20 else 0) +
    (if configAlerts = 0 then 10 else 0) +
    (if res.summary.dependencyAlerts < 5 then 20
     else if res.summary.dependencyAlerts < 20 then 10 else 0) +
    (scanningEnabled : ℚ) / (repos.length : ℚ) * 30
  min score 100

/-- `calculateNISTCompliance`. -/
def calculateNISTCompliance (res : Results) : ℚ :=
  let repos := res.repositories
  let protectedRepos := repos.countP fun r => r.securityFeatures.branchProtection.enabled
  let monitoredRepos := repos.countP fun r =>
    r.securityFeatures.codeScanning.enabled ||
    r.securityFeatures.secretScanning.enabled ||
    r.securityFeatures.dependabot.enabled
  let avgResponseTime : ℚ :=
    (repos.map fun repo => repo.metrics.meanTimeToResolve).sum / (repos.length : ℚ)
  let score : ℚ :=
    20 +
    (protectedRepos : ℚ) / (repos.length : ℚ) * 20 +
    (monitoredRepos : ℚ) / (repos.length : ℚ) * 20 +
    (if avgResponseTime < 7 then 20 else if avgResponseTime < 30 then 10 else 0) +
    20
  min score 100

/-- `calculateISOCompliance`. -/
def calculateISOCompliance (res : Results) : ℚ :=
  let repos := res.repositories
  let vulnMgmt := repos.countP fun r => r.securityFeatures.dependabot.enabled
  let secDev := repos.countP fun r => r.securityFeatures.codeScanning.enabled
  let secretMgmt := repos.countP fun r => r.securityFeatures.secretScanning.enabled
  let score : ℚ :=
    (vulnMgmt : ℚ) / (repos.length : ℚ) * 25 +
    (secDev : ℚ) / (repos.length : ℚ) * 25 +
    (secretMgmt : ℚ) / (repos.length : ℚ) * 25 +
    25
  min score 100

/-- `calculateCompliance`: runs once over the completed repository list; with
zero repositories it returns immediately, leaving the initial compliance
object untouched. -/
def calculateCompliance (res : Results) : Results :=
  let repos := res.repositories
  let totalRepos := repos.length
  if totalRepos = 0 then res
  else
    let scanning := (repos.map scanningContribution).sum / (totalRepos : ℚ) * 100
    let protection := (repos.map protectionContribution).sum / (totalRepos : ℚ) * 100
    let resolution := (repos.map resolutionContribution).sum / (totalRepos : ℚ) * 100
    let overallScore := (scanning + protection + resolution) / 3
    { res with compliance :=
        { overallScore := overallScore,
          frameworks :=
            [("OWASP",
              { score := calculateOWASPCompliance res,
                details := "Based on OWASP Top 10 coverage" }),
             ("NIST",
              { score := calculateNISTCompliance res,
                details := "Based on NIST Cybersecurity Framework" }),
             ("ISO27001",
              { score := calculateISOCompliance res,
                details := "Based on ISO 27001 controls" })] } }

/-- The summary object as initialized in the `GHASAudit` constructor, with
`totalRepositories` set (as in `run`) once the selector returns. -/
def initialSummary (totalRepositories : Nat) : Summary :=
  { totalRepositories := totalRepositories, scannedRepositories := 0,
    totalAlerts := 0, criticalAlerts := 0, highAlerts := 0, mediumAlerts := 0,
    lowAlerts := 0, secretAlerts := 0, dependencyAlerts := 0, codeAlerts := 0 }

/-- The compliance object as initialized in the `GHASAudit` constructor. -/
def initialCompliance : Compliance :=
  { overallScore := 0, frameworks := [] }

/-- `this.results` right after the selector returned `totalRepositories`
repositories. -/
def initialResults (totalRepositories : Nat) : Results :=
  { summary := initialSummary totalRepositories, repositories := [],
    compliance := initialCompliance }

/-- The per-repository tail of `auditRepository` once the three collections
are in hand: compute metrics, fold into the summary, append to the list and
count the repository as scanned. -/
def auditRepository (res : Results) (repoAudit : RepoAudit) : Results :=
  let repoAudit := calculateRepoMetrics repoAudit
  let summary := updateSummary res.summary repoAudit
  { res with
      summary := { summary with scannedRepositories := summary.scannedRepositories + 1 },
      repositories := res.repositories ++ [repoAudit] }

/-- The `run` pipeline over already-collected repository audits: sequential
fold of `auditRepository`, then `calculateCompliance` once. -/
def runAudit (repos : List RepoAudit) : Results :=
  calculateCompliance (repos.foldl auditRepository (initialResults repos.length))

/-- All four feature probes left at their defaults. -/
def allFeaturesOff : SecurityFeatures :=
  { codeScanning := { enabled := false },
    secretScanning := { enabled := false, pushProtection := false },
    dependabot := { enabled := false, securityUpdates := false },
    branchProtection := { enabled := false } }

/-- A repository audit as built at the top of `auditRepository`, with the
three given alert collections and not-yet-computed metrics. -/
def repoWithAlerts (code secret dependency : List Alert) : RepoAudit :=
  { name := "repo", securityFeatures := allFeaturesOff,
    alerts := { code := code, secret := secret, dependency := dependency },
    metrics := zeroMetrics }

/-- A secret-scanning alert that was resolved (state and `resolvedAt` set)
but never dismissed. -/
def resolvedSecretAlert : Alert :=
  { defaultAlert with
    state := some "resolved", createdAt := 0, resolvedAt := some 86400000 }

/-- A repository holding a single secret-scanning alert created at `T` and
resolved five days later. -/
def singleResolvedRepo (T : ℚ) : RepoAudit :=
  repoWithAlerts []
    [{ defaultAlert with
       state := some "resolved", createdAt := T,
       resolvedAt := some (T + 5 * (1000 * 60 * 60 * 24)) }] []

/-- C2: for every repository summary produced by the metrics calculation,
`totalAlerts` equals `openAlerts` plus `closedAlerts`, and `totalAlerts`
equals the sum of the sizes of the three raw alert collections. -/
theorem C2_count_invariant (r : RepoAudit) :
    (calculateRepoMetrics r).metrics.totalAlerts =
      (calculateRepoMetrics r).metrics.openAlerts +
        (calculateRepoMetrics r).metrics.closedAlerts ∧
    (calculateRepoMetrics r).metrics.totalAlerts =
      r.alerts.code.length + r.alerts.secret.length + r.alerts.dependency.length := by
  have hle : ((allAlertsOf r).filter isOpenAlert).length ≤ (allAlertsOf r).length :=
    List.length_filter_le _ _
  constructor
  · simp only [calculateRepoMetrics]
    omega
  · simp [calculateRepoMetrics, allAlertsOf]
    omega

/-- C10: with zero repositories processed, compliance scoring is skipped:
the overall score stays 0 and the frameworks mapping stays empty. -/
theorem C10_empty_fleet_skips_compliance :
    (runAudit []).compliance.overallScore = 0 ∧
    (runAudit []).compliance.frameworks = [] :=
  ⟨rfl, rfl⟩

/-- C4 fails on the code: an alert with state `resolved` and a `resolvedAt`
timestamp but no `dismissedAt` timestamp is counted as open, not closed,
because the open filter tests only `dismissedAt`. -/
theorem C4_counterexample :
    (calculateRepoMetrics (repoWithAlerts [] [resolvedSecretAlert] [])).metrics.openAlerts = 1 ∧
    (calculateRepoMetrics (repoWithAlerts [] [resolvedSecretAlert] [])).metrics.closedAlerts = 0 := by
  constructor <;> rfl

/-- C4 amended: `openAlerts` counts the alerts whose state is `open` or that
carry no dismissed timestamp (`resolvedAt` is not consulted);
`closedAlerts` is `totalAlerts` minus `openAlerts`; and an alert with state
`resolved`, a `resolvedAt` timestamp and no `dismissedAt` timestamp passes
the open filter. -/
theorem C4_amended_open_filter (r : RepoAudit) (t : ℚ) :
    (calculateRepoMetrics r).metrics.openAlerts =
      (allAlertsOf r).countP (fun a => a.state == some "open" || a.dismissedAt.isNone) ∧
    (calculateRepoMetrics r).metrics.closedAlerts =
      (calculateRepoMetrics r).metrics.totalAlerts -
        (calculateRepoMetrics r).metrics.openAlerts ∧
    isOpenAlert { defaultAlert with state := some "resolved", resolvedAt := some t } = true := by
  refine ⟨?_, ?_, rfl⟩
  · simp only [calculateRepoMetrics]
    rw [List.countP_eq_length_filter]
    rfl
  · simp [calculateRepoMetrics]

/-- C9: a mapped dependency alert carries no state, no `resolvedAt` and no
`dismissedAt` (the queried `dismissedAt` is dropped), so it always passes the
open filter and never passes the resolved filter: dependency alerts are all
counted open and never contribute to `closedAlerts` or to the mean time to
resolve. -/
theorem C9_dependency_alerts_always_open (node : DependencyNode)
    (code secret : List Alert) (nodes : List DependencyNode) :
    (mapDependencyAlert node).state = none ∧
    (mapDependencyAlert node).resolvedAt = none ∧
    (mapDependencyAlert node).dismissedAt = none ∧
    isOpenAlert (mapDependencyAlert node) = true ∧
    hasResolutionTimestamp (mapDependencyAlert node) = false ∧
    (calculateRepoMetrics (repoWithAlerts code secret
        (nodes.map mapDependencyAlert))).metrics.openAlerts =
      ((code ++ secret).filter isOpenAlert).length + nodes.length ∧
    (allAlertsOf (repoWithAlerts code secret
        (nodes.map mapDependencyAlert))).filter hasResolutionTimestamp =
      (code ++ secret).filter hasResolutionTimestamp := by
  have hopen : ∀ n : DependencyNode, isOpenAlert (mapDependencyAlert n) = true :=
    fun _ => rfl
  have hres : ∀ n : DependencyNode, hasResolutionTimestamp (mapDependencyAlert n) = false :=
    fun _ => rfl
  refine ⟨rfl, rfl, rfl, rfl, rfl, ?_, ?_⟩
  · simp [calculateRepoMetrics, allAlertsOf, repoWithAlerts, List.filter_append,
      List.filter_map, Function.comp_def, hopen]
    omega
  · simp [allAlertsOf, repoWithAlerts, List.filter_append, List.filter_map,
      Function.comp_def, hres]

/-- Resolver that accepts every repository name. -/
def resolveAny : String → Option Repository :=
  fun n => some { name := n, topics := [] }

/-- C8 fails on the code: the explicit-list mode of the repository selector
performs no deduplication, so a repeated name yields a duplicated identity. -/
theorem C8_counterexample :
    getRepositoriesExplicit resolveAny "alpha,alpha" =
      [{ name := "alpha", topics := [] }, { name := "alpha", topics := [] }] ∧
    ¬ (getRepositoriesExplicit resolveAny "alpha,alpha").Nodup := by
  constructor
  · rfl
  · decide

/-- The accumulator form of the explicit-mode resolution loop. -/
lemma foldl_resolve_eq_filterMap (resolve : String → Option Repository)
    (l : List String) (acc : List Repository) :
    l.foldl (fun repos repoName =>
      match resolve repoName with
      | some data => repos ++ [data]
      | none => repos) acc = acc ++ l.filterMap resolve := by
  induction l generalizing acc with
  | nil => simp
  | cons n l ih =>
    cases h : resolve n with
    | none => simp [List.foldl_cons, List.filterMap_cons, h, ih]
    | some d => simp [List.foldl_cons, List.filterMap_cons, h, ih]

/-- C8 amended: explicit mode returns, in input order, one entry per name
that resolves — duplicates in the requested list are preserved, names that
fail to resolve are skipped — and an empty result is valid (a resolver that
rejects everything yields the empty list, not an error). -/
theorem C8_amended_no_dedup (resolve : String → Option Repository)
    (reposOption : String) :
    getRepositoriesExplicit resolve reposOption =
      ((jsSplitCommas reposOption).map jsTrim).filterMap resolve ∧
    getRepositoriesExplicit (fun _ => none) reposOption = [] := by
  constructor
  · simpa [getRepositoriesExplicit] using
      foldl_resolve_eq_filterMap resolve ((jsSplitCommas reposOption).map jsTrim) []
  · simp [getRepositoriesExplicit,
      foldl_resolve_eq_filterMap (fun _ => none) ((jsSplitCommas reposOption).map jsTrim) []]

/-- C7: the mean time to resolve averages, over exactly the alerts carrying a
resolution timestamp, the resolution time in days; it is 0 when no alert
carries one; and a single alert resolved five days after creation yields 5. -/
theorem C7_mean_time_to_resolve (r : RepoAudit) (T : ℚ) :
    ((allAlertsOf r).filter hasResolutionTimestamp = [] →
      (calculateRepoMetrics r).metrics.meanTimeToResolve = 0) ∧
    ((allAlertsOf r).filter hasResolutionTimestamp ≠ [] →
      (calculateRepoMetrics r).metrics.meanTimeToResolve =
        (((allAlertsOf r).filter hasResolutionTimestamp).map resolutionTimeDays).sum /
          ((((allAlertsOf r).filter hasResolutionTimestamp).length : ℚ))) ∧
    (calculateRepoMetrics (singleResolvedRepo T)).metrics.meanTimeToResolve = 5 := by
  refine ⟨?_, ?_, ?_⟩
  · intro h
    simp [calculateRepoMetrics, h]
  · intro h
    have hpos : 0 < ((allAlertsOf r).filter hasResolutionTimestamp).length :=
      List.length_pos.mpr h
    simp [calculateRepoMetrics, hpos]
  · simp [calculateRepoMetrics, singleResolvedRepo, repoWithAlerts, allAlertsOf,
      hasResolutionTimestamp, resolutionTimeDays, defaultAlert]

/-- A dependency vulnerability node returned on the first GraphQL page. -/
def depNodeC3 : DependencyNode :=
  { id := "RA_1", createdAt := 0, dismissedAt := none,
    securityVulnerability :=
      { severity := "HIGH",
        package := { name := "lodash", ecosystem := "NPM" },
        advisory :=
          { summary := "Prototype pollution", description := "",
            cvss := some { score := 7 } } } }

/-- A page oracle whose first page succeeds with one node and a next-page
cursor, and whose second request throws. -/
def fetchC3 : Nat → Except String (Option VulnerabilityAlertsPage) :=
  fun page =>
    if page = 0 then
      Except.ok (some { nodes := [depNodeC3],
                        pageInfo := { hasNextPage := true, endCursor := some "cursor1" } })
    else Except.error "network error"

/-- C3 fails on the code: when the dependency pagination throws after page 1,
the catch in `getDependabotAlerts` returns the alerts already accumulated, so
the dependency collection holds the page-1 alerts — it is not empty as the
claim states (a warning is recorded). -/
theorem C3_counterexample :
    (getDependabotAlerts fetchC3 10 0 []).1 = [mapDependencyAlert depNodeC3] ∧
    (getDependabotAlerts fetchC3 10 0 []).1 ≠ [] ∧
    (getDependabotAlerts fetchC3 10 0 []).2 = true := by
  refine ⟨rfl, ?_, rfl⟩
  decide

/-- C3 amended: when the dependency pagination throws after a successful
page 1 while the code and secret sources succeed, the run does not abort:
the repository's output keeps the code and secret alerts, the dependency
collection holds exactly the page-1 alerts fetched before the failure
(rather than being empty), and a warning is recorded. -/
theorem C3_amended_partial_dependency_failure
    (fetch : Nat → Except String (Option VulnerabilityAlertsPage))
    (nodes1 : List DependencyNode) (cursor : Option String) (e : String) (fuel : Nat)
    (h0 : fetch 0 = Except.ok (some { nodes := nodes1, pageInfo := { hasNextPage := true, endCursor := cursor } }))
    (h1 : fetch 1 = Except.error e)
    (codeAlerts secretAlerts : List Alert) :
    getDependabotAlerts fetch (fuel + 2) 0 [] = (nodes1.map mapDependencyAlert, true) ∧
    (calculateRepoMetrics (repoWithAlerts codeAlerts secretAlerts
        (getDependabotAlerts fetch (fuel + 2) 0 []).1)).alerts.code = codeAlerts ∧
    (calculateRepoMetrics (repoWithAlerts codeAlerts secretAlerts
        (getDependabotAlerts fetch (fuel + 2) 0 []).1)).alerts.secret = secretAlerts ∧
    (calculateRepoMetrics (repoWithAlerts codeAlerts secretAlerts
        (getDependabotAlerts fetch (fuel + 2) 0 []).1)).alerts.dependency =
      nodes1.map mapDependencyAlert := by
  have hmain : getDependabotAlerts fetch (fuel + 2) 0 [] =
      (nodes1.map mapDependencyAlert, true) := by
    show getDependabotAlerts fetch ((fuel + 1) + 1) 0 [] = _
    rw [getDependabotAlerts, h0]
    simp only
    show getDependabotAlerts fetch (fuel + 1) 1 _ = _
    rw [getDependabotAlerts, h1]
    simp
  exact ⟨hmain, by simp [hmain, calculateRepoMetrics, repoWithAlerts],
         by simp [hmain, calculateRepoMetrics, repoWithAlerts],
         by simp [hmain, calculateRepoMetrics, repoWithAlerts]⟩

/-- Witness for `C3_amended_partial_dependency_failure` at the concrete page
oracle `fetchC3`. -/
theorem C3_amended_witness :
    getDependabotAlerts fetchC3 2 0 [] = ([depNodeC3].map mapDependencyAlert, true) ∧
    (calculateRepoMetrics (repoWithAlerts [] []
        (getDependabotAlerts fetchC3 2 0 []).1)).alerts.code = [] ∧
    (calculateRepoMetrics (repoWithAlerts [] []
        (getDependabotAlerts fetchC3 2 0 []).1)).alerts.secret = [] ∧
    (calculateRepoMetrics (repoWithAlerts [] []
        (getDependabotAlerts fetchC3 2 0 []).1)).alerts.dependency =
      [depNodeC3].map mapDependencyAlert :=
  C3_amended_partial_dependency_failure fetchC3 [depNodeC3] (some "cursor1")
    "network error" 0 rfl rfl [] []

/-- Witness for `C7_mean_time_to_resolve` at a repository with no alerts and
at a creation time of 0. -/
theorem C7_mean_time_to_resolve_witness :
    (calculateRepoMetrics (repoWithAlerts [] [] [])).metrics.meanTimeToResolve = 0 ∧
    (calculateRepoMetrics (singleResolvedRepo 0)).metrics.meanTimeToResolve = 5 :=
  ⟨(C7_mean_time_to_resolve (repoWithAlerts [] [] []) 0).1 rfl,
   (C7_mean_time_to_resolve (repoWithAlerts [] [] []) 0).2.2⟩

/-- A code-scanning style alert carrying the given severity string. -/
def mixedSeverityAlert (sev : String) : Alert :=
  { defaultAlert with severity := some sev, state := some "open" }

/-- One repository whose five code-scanning alerts carry the severities
`["critical", "HIGH", "Medium", "low", "unknown-string"]`. -/
def repoMixedSeverities : RepoAudit :=
  repoWithAlerts
    (["critical", "HIGH", "Medium", "low", "unknown-string"].map mixedSeverityAlert) [] []

/-- C1 fails on the code: the summary bucket switches are case-sensitive and
per-source, and there is no unknown bucket, so the mixed-case severities
`["critical","HIGH","Medium","low","unknown-string"]` yield one critical and
one low but zero high and zero medium — not one of each. -/
theorem C1_counterexample :
    (runAudit [repoMixedSeverities]).summary.criticalAlerts = 1 ∧
    (runAudit [repoMixedSeverities]).summary.highAlerts = 0 ∧
    (runAudit [repoMixedSeverities]).summary.mediumAlerts = 0 ∧
    (runAudit [repoMixedSeverities]).summary.lowAlerts = 1 := by
  refine ⟨rfl, rfl, rfl, rfl⟩

/-- What one code-scanning alert adds to the four severity buckets. -/
lemma bumpCodeSeverity_spec (s : Summary) (a : Alert) :
    bumpCodeSeverity s a = { s with
      criticalAlerts := s.criticalAlerts + (if a.severity == some "critical" then 1 else 0),
      highAlerts := s.highAlerts + (if a.severity == some "high" then 1 else 0),
      mediumAlerts := s.mediumAlerts + (if a.severity == some "medium" then 1 else 0),
      lowAlerts := s.lowAlerts + (if a.severity == some "low" then 1 else 0) } := by
  unfold bumpCodeSeverity
  split_ifs with h1 h2 h3 h4 <;> simp_all

/-- What one dependency alert adds to the four severity buckets. -/
lemma bumpDependencySeverity_spec (s : Summary) (a : Alert) :
    bumpDependencySeverity s a = { s with
      criticalAlerts := s.criticalAlerts + (if a.severity == some "CRITICAL" then 1 else 0),
      highAlerts := s.highAlerts + (if a.severity == some "HIGH" then 1 else 0),
      mediumAlerts := s.mediumAlerts + (if a.severity == some "MODERATE" then 1 else 0),
      lowAlerts := s.lowAlerts + (if a.severity == some "LOW" then 1 else 0) } := by
  unfold bumpDependencySeverity
  split_ifs with h1 h2 h3 h4 <;> simp_all

/-- Folding the code-scanning severity switch over a list of alerts. -/
lemma foldl_bumpCodeSeverity (l : List Alert) (s : Summary) :
    l.foldl bumpCodeSeverity s = { s with
      criticalAlerts := s.criticalAlerts + l.countP (fun a => a.severity == some "critical"),
      highAlerts := s.highAlerts + l.countP (fun a => a.severity == some "high"),
      mediumAlerts := s.mediumAlerts + l.countP (fun a => a.severity == some "medium"),
      lowAlerts := s.lowAlerts + l.countP (fun a => a.severity == some "low") } := by
  induction l generalizing s with
  | nil => simp
  | cons a l ih =>
    rw [List.foldl_cons, ih, bumpCodeSeverity_spec]
    ext <;> simp [List.countP_cons] <;> omega

/-- Folding the dependency severity switch over a list of alerts. -/
lemma foldl_bumpDependencySeverity (l : List Alert) (s : Summary) :
    l.foldl bumpDependencySeverity s = { s with
      criticalAlerts := s.criticalAlerts + l.countP (fun a => a.severity == some "CRITICAL"),
      highAlerts := s.highAlerts + l.countP (fun a => a.severity == some "HIGH"),
      mediumAlerts := s.mediumAlerts + l.countP (fun a => a.severity == some "MODERATE"),
      lowAlerts := s.lowAlerts + l.countP (fun a => a.severity == some "LOW") } := by
  induction l generalizing s with
  | nil => simp
  | cons a l ih =>
    rw [List.foldl_cons, ih, bumpDependencySeverity_spec]
    ext <;> simp [List.countP_cons] <;> omega

/-- What one repository adds to the critical bucket. -/
def critContribution (r : RepoAudit) : Nat :=
  (r.alerts.code.countP fun a => a.severity == some "critical") +
  (r.alerts.dependency.countP fun a => a.severity == some "CRITICAL")

/-- What one repository adds to the high bucket. -/
def highContribution (r : RepoAudit) : Nat :=
  (r.alerts.code.countP fun a => a.severity == some "high") +
  (r.alerts.dependency.countP fun a => a.severity == some "HIGH")

/-- What one repository adds to the medium bucket. -/
def mediumContribution (r : RepoAudit) : Nat :=
  (r.alerts.code.countP fun a => a.severity == some "medium") +
  (r.alerts.dependency.countP fun a => a.severity == some "MODERATE")

/-- What one repository adds to the low bucket. -/
def lowContribution (r : RepoAudit) : Nat :=
  (r.alerts.code.countP fun a => a.severity == some "low") +
  (r.alerts.dependency.countP fun a => a.severity == some "LOW")

/-- Closed form of `updateSummary`. -/
lemma updateSummary_spec (s : Summary) (r : RepoAudit) :
    updateSummary s r = { s with
      totalAlerts := s.totalAlerts + r.metrics.totalAlerts,
      criticalAlerts := s.criticalAlerts + critContribution r,
      highAlerts := s.highAlerts + highContribution r,
      mediumAlerts := s.mediumAlerts + mediumContribution r,
      lowAlerts := s.lowAlerts + lowContribution r,
      codeAlerts := s.codeAlerts + r.alerts.code.length,
      secretAlerts := s.secretAlerts + r.alerts.secret.length,
      dependencyAlerts := s.dependencyAlerts + r.alerts.dependency.length } := by
  ext <;>
    simp [updateSummary, foldl_bumpCodeSeverity, foldl_bumpDependencySeverity,
      critContribution, highContribution, mediumContribution, lowContribution] <;>
    omega

/-- C1 amended: the severity buckets are filled by case-sensitive, per-source
matching — code-scanning alerts count only under the exact lowercase strings
`critical`/`high`/`medium`/`low`, dependency alerts only under the exact
uppercase strings `CRITICAL`/`HIGH`/`MODERATE`/`LOW` (MODERATE feeding the
medium bucket), secret alerts and any other severity spelling (including
`unknown`) are never bucketed, and the summary has no unknown bucket. -/
theorem C1_amended_case_sensitive_counting (s : Summary) (r : RepoAudit) :
    (updateSummary s r).criticalAlerts = s.criticalAlerts +
      ((r.alerts.code.countP fun a => a.severity == some "critical") +
       (r.alerts.dependency.countP fun a => a.severity == some "CRITICAL")) ∧
    (updateSummary s r).highAlerts = s.highAlerts +
      ((r.alerts.code.countP fun a => a.severity == some "high") +
       (r.alerts.dependency.countP fun a => a.severity == some "HIGH")) ∧
    (updateSummary s r).mediumAlerts = s.mediumAlerts +
      ((r.alerts.code.countP fun a => a.severity == some "medium") +
       (r.alerts.dependency.countP fun a => a.severity == some "MODERATE")) ∧
    (updateSummary s r).lowAlerts = s.lowAlerts +
      ((r.alerts.code.countP fun a => a.severity == some "low") +
       (r.alerts.dependency.countP fun a => a.severity == some "LOW")) := by
  rw [updateSummary_spec]
  exact ⟨rfl, rfl, rfl, rfl⟩

/-- What one repository adds to `summary.totalAlerts`. -/
def totalContribution (r : RepoAudit) : Nat :=
  (allAlertsOf r).length

/-- `calculateCompliance` never touches the summary. -/
lemma calculateCompliance_summary (res : Results) :
    (calculateCompliance res).summary = res.summary := by
  simp [calculateCompliance, apply_ite (f := Results.summary)]

/-- The fold of `auditRepository` appends the metrics-completed audits in
order. -/
lemma foldl_audit_repositories (repos : List RepoAudit) (res : Results) :
    (repos.foldl auditRepository res).repositories =
      res.repositories ++ repos.map calculateRepoMetrics := by
  induction repos generalizing res with
  | nil => simp
  | cons r l ih => simp [List.foldl_cons, ih, auditRepository]

/-- The fold of `auditRepository` never touches the compliance object. -/
lemma foldl_audit_compliance (repos : List RepoAudit) (res : Results) :
    (repos.foldl auditRepository res).compliance = res.compliance := by
  induction repos generalizing res with
  | nil => rfl
  | cons r l ih => simp [List.foldl_cons, ih, auditRepository]

/-- Closed form of the summary after one `auditRepository` pass. -/
lemma auditRepository_summary (res : Results) (r : RepoAudit) :
    (auditRepository res r).summary = { res.summary with
      scannedRepositories := res.summary.scannedRepositories + 1,
      totalAlerts := res.summary.totalAlerts + totalContribution r,
      criticalAlerts := res.summary.criticalAlerts + critContribution r,
      highAlerts := res.summary.highAlerts + highContribution r,
      mediumAlerts := res.summary.mediumAlerts + mediumContribution r,
      lowAlerts := res.summary.lowAlerts + lowContribution r,
      codeAlerts := res.summary.codeAlerts + r.alerts.code.length,
      secretAlerts := res.summary.secretAlerts + r.alerts.secret.length,
      dependencyAlerts := res.summary.dependencyAlerts + r.alerts.dependency.length } := by
  ext <;>
    simp [auditRepository, updateSummary_spec, totalContribution, calculateRepoMetrics,
      critContribution, highContribution, mediumContribution, lowContribution]

/-- Closed form of the summary after folding `auditRepository` over a list:
every bucket is the initial value plus a sum of per-repository
contributions. -/
lemma foldl_audit_summary (repos : List RepoAudit) (res : Results) :
    (repos.foldl auditRepository res).summary = { res.summary with
      scannedRepositories := res.summary.scannedRepositories + repos.length,
      totalAlerts := res.summary.totalAlerts + (repos.map totalContribution).sum,
      criticalAlerts := res.summary.criticalAlerts + (repos.map critContribution).sum,
      highAlerts := res.summary.highAlerts + (repos.map highContribution).sum,
      mediumAlerts := res.summary.mediumAlerts + (repos.map mediumContribution).sum,
      lowAlerts := res.summary.lowAlerts + (repos.map lowContribution).sum,
      codeAlerts := res.summary.codeAlerts +
        (repos.map fun r => r.alerts.code.length).sum,
      secretAlerts := res.summary.secretAlerts +
        (repos.map fun r => r.alerts.secret.length).sum,
      dependencyAlerts := res.summary.dependencyAlerts +
        (repos.map fun r => r.alerts.dependency.length).sum } := by
  induction repos generalizing res with
  | nil => ext <;> simp
  | cons r l ih =>
    rw [List.foldl_cons, ih]
    ext <;> simp [auditRepository_summary] <;> omega

/-- The compliance object computed by `calculateCompliance` only depends on
the summary, the multiset of repositories and (when the list is empty) the
incoming compliance object. -/
lemma calculateCompliance_congr (res1 res2 : Results)
    (hs : res1.summary = res2.summary)
    (hr : res1.repositories.Perm res2.repositories)
    (hc : res1.compliance = res2.compliance) :
    (calculateCompliance res1).compliance = (calculateCompliance res2).compliance := by
  have hlen : res1.repositories.length = res2.repositories.length := hr.length_eq
  have howasp : calculateOWASPCompliance res1 = calculateOWASPCompliance res2 := by
    have e1 := (hr.map fun repo =>
      (repo.alerts.code.filter fun a => strIncludes (a.rule.getD "") "injection").length).sum_eq
    have e2 := (hr.map fun repo =>
      (repo.alerts.code.filter fun a => strIncludes (a.rule.getD "") "auth").length).sum_eq
    have e3 := (hr.map fun repo =>
      (repo.alerts.code.filter fun a => strIncludes (a.rule.getD "") "config").length).sum_eq
    have e4 := hr.countP_eq fun r => r.securityFeatures.codeScanning.enabled
    simp only [calculateOWASPCompliance, countRuleMatches]
    simp only [hs, hlen, e1, e2, e3, e4]
  have hnist : calculateNISTCompliance res1 = calculateNISTCompliance res2 := by
    have e1 := hr.countP_eq fun r => r.securityFeatures.branchProtection.enabled
    have e2 := hr.countP_eq fun r =>
      r.securityFeatures.codeScanning.enabled ||
      r.securityFeatures.secretScanning.enabled ||
      r.securityFeatures.dependabot.enabled
    have e3 := (hr.map fun repo => repo.metrics.meanTimeToResolve).sum_eq
    simp only [calculateNISTCompliance]
    simp only [hlen, e1, e2, e3]
  have hiso : calculateISOCompliance res1 = calculateISOCompliance res2 := by
    have e1 := hr.countP_eq fun r => r.securityFeatures.dependabot.enabled
    have e2 := hr.countP_eq fun r => r.securityFeatures.codeScanning.enabled
    have e3 := hr.countP_eq fun r => r.securityFeatures.secretScanning.enabled
    simp only [calculateISOCompliance]
    simp only [hlen, e1, e2, e3]
  by_cases hN : res1.repositories.length = 0
  · have hN2 : res2.repositories.length = 0 := by omega
    simp [calculateCompliance, hN, hN2, hc]
  · have hN2 : ¬ res2.repositories.length = 0 := by omega
    have e1 := (hr.map scanningContribution).sum_eq
    have e2 := (hr.map protectionContribution).sum_eq
    have e3 := (hr.map resolutionContribution).sum_eq
    simp [calculateCompliance, hN, hN2, e1, e2, e3, hlen, howasp, hnist, hiso]

/-- C6: processing the same repositories in any permuted order yields an
identical fleet summary and an identical compliance result. -/
theorem C6_order_independence (repos1 repos2 : List RepoAudit)
    (h : repos1.Perm repos2) :
    (runAudit repos1).summary = (runAudit repos2).summary ∧
    (runAudit repos1).compliance = (runAudit repos2).compliance := by
  have hlen : repos1.length = repos2.length := h.length_eq
  have hsummary : (repos1.foldl auditRepository (initialResults repos1.length)).summary =
      (repos2.foldl auditRepository (initialResults repos2.length)).summary := by
    rw [foldl_audit_summary, foldl_audit_summary]
    have e1 := (h.map totalContribution).sum_eq
    have e2 := (h.map critContribution).sum_eq
    have e3 := (h.map highContribution).sum_eq
    have e4 := (h.map mediumContribution).sum_eq
    have e5 := (h.map lowContribution).sum_eq
    have e6 := (h.map fun r => r.alerts.code.length).sum_eq
    have e7 := (h.map fun r => r.alerts.secret.length).sum_eq
    have e8 := (h.map fun r => r.alerts.dependency.length).sum_eq
    ext <;> simp [initialResults, initialSummary, hlen, e1, e2, e3, e4, e5, e6, e7, e8]
  constructor
  · rw [runAudit, runAudit, calculateCompliance_summary, calculateCompliance_summary]
    exact hsummary
  · rw [runAudit, runAudit]
    exact calculateCompliance_congr _ _ hsummary
      (by rw [foldl_audit_repositories, foldl_audit_repositories]
          simpa [initialResults] using h.map calculateRepoMetrics)
      (by rw [foldl_audit_compliance, foldl_audit_compliance]; rfl)

/-- Witness for `C6_order_independence` on two concrete repositories swapped. -/
theorem C6_order_independence_witness :
    (runAudit [repoMixedSeverities, singleResolvedRepo 0]).summary =
      (runAudit [singleResolvedRepo 0, repoMixedSeverities]).summary ∧
    (runAudit [repoMixedSeverities, singleResolvedRepo 0]).compliance =
      (runAudit [singleResolvedRepo 0, repoMixedSeverities]).compliance :=
  C6_order_independence [repoMixedSeverities, singleResolvedRepo 0]
    [singleResolvedRepo 0, repoMixedSeverities]
    (List.Perm.swap (singleResolvedRepo 0) repoMixedSeverities [])

/-- The per-repository scanning credit is between 0 and 1. -/
lemma scanningContribution_bounds (r : RepoAudit) :
    0 ≤ scanningContribution r ∧ scanningContribution r ≤ 1 := by
  unfold scanningContribution
  constructor <;> split_ifs <;> norm_num

/-- The per-repository protection credit is between 0 and 1. -/
lemma protectionContribution_bounds (r : RepoAudit) :
    0 ≤ protectionContribution r ∧ protectionContribution r ≤ 1 := by
  unfold protectionContribution
  constructor <;> split_ifs <;> norm_num

/-- The per-repository resolution credit is between 0 and 1 whenever closed
alerts do not exceed total alerts. -/
lemma resolutionContribution_bounds (r : RepoAudit)
    (h : r.metrics.closedAlerts ≤ r.metrics.totalAlerts) :
    0 ≤ resolutionContribution r ∧ resolutionContribution r ≤ 1 := by
  unfold resolutionContribution
  split_ifs with ht
  · refine ⟨by positivity, ?_⟩
    rw [div_le_one (by exact_mod_cast ht)]
    exact_mod_cast h
  · norm_num

/-- The metrics calculator always yields closed ≤ total (closed is a
truncated subtraction from total). -/
lemma calculateRepoMetrics_closed_le (r : RepoAudit) :
    (calculateRepoMetrics r).metrics.closedAlerts ≤
      (calculateRepoMetrics r).metrics.totalAlerts := by
  simp only [calculateRepoMetrics]
  omega

/-- Averaging values in `[0, 1]` over a nonempty list and scaling by 100
lands in `[0, 100]`. -/
lemma avg_scaled_bounds (l : List ℚ) (hne : l ≠ [])
    (h : ∀ x ∈ l, 0 ≤ x ∧ x ≤ 1) :
    0 ≤ l.sum / (l.length : ℚ) * 100 ∧ l.sum / (l.length : ℚ) * 100 ≤ 100 := by
  have hpos : (0 : ℚ) < (l.length : ℚ) := by
    exact_mod_cast List.length_pos.mpr hne
  have h0 : 0 ≤ l.sum := List.sum_nonneg fun x hx => (h x hx).1
  have h1 : l.sum ≤ (l.length : ℚ) := by
    have := List.sum_le_card_nsmul l 1 fun x hx => (h x hx).2
    simpa using this
  refine ⟨by positivity, ?_⟩
  have hdiv : l.sum / (l.length : ℚ) ≤ 1 := (div_le_one hpos).mpr h1
  calc l.sum / (l.length : ℚ) * 100 ≤ 1 * 100 :=
        mul_le_mul_of_nonneg_right hdiv (by norm_num)
    _ = 100 := by norm_num

/-- `avg_scaled_bounds` specialised to the map-then-average shape used in
`calculateCompliance`. -/
lemma avg_contribution_bounds (l : List RepoAudit) (f : RepoAudit → ℚ) (hne : l ≠ [])
    (h : ∀ r ∈ l, 0 ≤ f r ∧ f r ≤ 1) :
    0 ≤ (l.map f).sum / (l.length : ℚ) * 100 ∧
    (l.map f).sum / (l.length : ℚ) * 100 ≤ 100 := by
  have hb := avg_scaled_bounds (l.map f) (by simpa using hne) ?_
  · simpa using hb
  · intro x hx
    obtain ⟨r, hr, rfl⟩ := List.mem_map.mp hx
    exact h r hr

/-- The OWASP framework score is always within `[0, 100]`. -/
lemma calculateOWASPCompliance_bounds (res : Results) :
    0 ≤ calculateOWASPCompliance res ∧ calculateOWASPCompliance res ≤ 100 := by
  simp only [calculateOWASPCompliance]
  refine ⟨le_min ?_ (by norm_num), min_le_right _ _⟩
  split_ifs <;> positivity

/-- The NIST framework score is always within `[0, 100]`. -/
lemma calculateNISTCompliance_bounds (res : Results) :
    0 ≤ calculateNISTCompliance res ∧ calculateNISTCompliance res ≤ 100 := by
  simp only [calculateNISTCompliance]
  refine ⟨le_min ?_ (by norm_num), min_le_right _ _⟩
  split_ifs <;> positivity

/-- The ISO 27001 framework score is always within `[0, 100]`. -/
lemma calculateISOCompliance_bounds (res : Results) :
    0 ≤ calculateISOCompliance res ∧ calculateISOCompliance res ≤ 100 := by
  simp only [calculateISOCompliance]
  refine ⟨le_min ?_ (by norm_num), min_le_right _ _⟩
  positivity

/-- C5: for every input repository list, the overall compliance score and
every framework score lie within the closed interval `[0, 100]`. -/
theorem C5_score_bounds (repos : List RepoAudit) :
    (0 ≤ (runAudit repos).compliance.overallScore ∧
     (runAudit repos).compliance.overallScore ≤ 100) ∧
    ∀ fw ∈ (runAudit repos).compliance.frameworks,
      0 ≤ fw.2.score ∧ fw.2.score ≤ 100 := by
  rw [runAudit]
  set res0 := repos.foldl auditRepository (initialResults repos.length) with hres0
  have hrep : res0.repositories = repos.map calculateRepoMetrics := by
    rw [hres0, foldl_audit_repositories]
    simp [initialResults]
  by_cases hN : res0.repositories.length = 0
  · have hcomp : res0.compliance = initialCompliance := by
      rw [hres0, foldl_audit_compliance]
      rfl
    simp [calculateCompliance, hN, hcomp, initialCompliance]
  · have hne : res0.repositories ≠ [] := by
      intro hemp
      exact hN (by simp [hemp])
    have hresol : ∀ r ∈ res0.repositories,
        0 ≤ resolutionContribution r ∧ resolutionContribution r ≤ 1 := by
      intro r hr
      rw [hrep] at hr
      obtain ⟨r0, _, rfl⟩ := List.mem_map.mp hr
      exact resolutionContribution_bounds _ (calculateRepoMetrics_closed_le r0)
    obtain ⟨s0, s1⟩ := avg_contribution_bounds res0.repositories scanningContribution hne
      (fun r _ => scanningContribution_bounds r)
    obtain ⟨p0, p1⟩ := avg_contribution_bounds res0.repositories protectionContribution hne
      (fun r _ => protectionContribution_bounds r)
    obtain ⟨q0, q1⟩ := avg_contribution_bounds res0.repositories resolutionContribution hne
      hresol
    constructor
    · simp only [calculateCompliance, hN, if_false]
      constructor <;> linarith
    · intro fw hfw
      simp only [calculateCompliance, hN, if_false] at hfw
      simp only [List.mem_cons, List.mem_singleton] at hfw
      rcases hfw with rfl | rfl | rfl | hfw
      · simpa using calculateOWASPCompliance_bounds res0
      · simpa using calculateNISTCompliance_bounds res0
      · simpa using calculateISOCompliance_bounds res0
      · simp at hfw

end GhasAudit
